import Mathlib

/-!
Shallow embedding of the event-driven recurrence / notification / idempotency
subsystem of the multi-service todo application, together with theorems
settling the specification claims about it.

Conventions of the embedding:
* Datetimes are integers (minutes since a fixed epoch); one day is 1440
  minutes.  Times of day are naturals (minutes since midnight, `0 ≤ t < 1440`
  at call sites but nothing in the code depends on the bound).
* Event ids and consumer ids are opaque; where the Python code only ever
  compares them for equality they are modelled polymorphically over a type
  with decidable equality, instantiated at `String` (or `Nat` for concrete
  evaluations).
* Python `Optional[X]` becomes `Option X`; a raised exception becomes an
  `Except` error value; an outbound network call becomes an oracle function
  passed as an argument, whose result the code branches on exactly the way
  the source branches on the call's success or failure.
* Python truthiness is translated explicitly: `None` is falsy, a datetime is
  always truthy, the empty string is falsy, the integer 0 is falsy.
* A Python `set` mutated by `add` and enumerated by `list(...)` is modelled
  as an insertion-ordered duplicate-free list; facts that depend only on the
  cardinality of the set are insensitive to this enumeration choice.
-/

/-! ## Backend idempotency ledger (`src/backend/app/services/idempotency.py`) -/

/-- A row of the `processed_event` table: composite key
`(event_id, consumer_id)` plus the `processed_at` timestamp. -/
structure ProcessedEvent where
  event_id : Nat
  consumer_id : String
  processed_at : Int
deriving DecidableEq, Repr

/-- `is_event_processed`: the `SELECT ... WHERE event_id = e AND
consumer_id = c` existence check of `idempotency.py`. -/
def is_event_processed (ledger : List ProcessedEvent) (e : Nat) (c : String) : Bool :=
  ledger.any (fun r => r.event_id == e && r.consumer_id == c)

/-- `mark_event_processed`: inserts a new `ProcessedEvent` row with
`processed_at = now`. -/
def mark_event_processed (ledger : List ProcessedEvent) (e : Nat) (c : String)
    (now : Int) : List ProcessedEvent :=
  ledger ++ [⟨e, c, now⟩]

/-- Outcome of one pass through the `idempotent_processor` context manager
(with the conventional body that runs the handler iff `should_process`). -/
inductive ProcOutcome where
  | skipped
  | duplicateError
  | success
  | failed (msg : String)
deriving DecidableEq, Repr

/-- Result of one invocation of the idempotent-processing operation:
the reported outcome, the ledger afterwards, and the downstream state
afterwards. -/
structure ProcResult (σ : Type) where
  outcome : ProcOutcome
  ledger : List ProcessedEvent
  state : σ

/-- `idempotent_processor` of `idempotency.py`, fused with its documented
usage pattern (`if should_process: await handle_event()`):

1. if `(e, c)` is already in the ledger, the body is skipped (or, when
   `raise_on_duplicate`, `EventAlreadyProcessedError` is raised) and nothing
   changes;
2. otherwise the handler runs on the downstream state `s`; if it returns
   normally the pair is marked processed *afterwards*; if it raises, the
   exception propagates and the pair is **not** marked. -/
def idempotent_processor {σ : Type} (e : Nat) (c : String)
    (raise_on_duplicate : Bool) (handler : σ → Except String σ)
    (now : Int) (ledger : List ProcessedEvent) (s : σ) : ProcResult σ :=
  if is_event_processed ledger e c then
    if raise_on_duplicate then ⟨.duplicateError, ledger, s⟩
    else ⟨.skipped, ledger, s⟩
  else
    match handler s with
    | .ok s2 => ⟨.success, mark_event_processed ledger e c now, s2⟩
    | .error m => ⟨.failed m, ledger, s⟩

/-- `cleanup_old_events`: deletes every row with
`processed_at < now - days_to_keep` days; returns the surviving ledger and
the number of deleted rows. -/
def cleanup_old_events (ledger : List ProcessedEvent) (now : Int)
    (days_to_keep : Nat) : List ProcessedEvent × Nat :=
  let cutoff : Int := now - (days_to_keep : Int) * 1440
  let kept := ledger.filter (fun r => !(decide (r.processed_at < cutoff)))
  (kept, ledger.length - kept.length)

/-- Instruments a handler so that the paired counter records how many times
the underlying handler actually executed. -/
def countingHandler {σ : Type} (h : σ → Except String σ) :
    σ × Nat → Except String (σ × Nat) :=
  fun p =>
    match h p.1 with
    | .ok s2 => .ok (s2, p.2 + 1)
    | .error m => .error m

/-! ## Service-side in-memory processed-event set
(`src/services/recurring-task/app/handlers.py` and
`src/services/notification/app/handlers.py`, identical code) -/

/-- `is_event_processed` of the service handlers: membership in the
in-memory `_processed_events` set. -/
def svc_is_event_processed {α : Type} [DecidableEq α] (processed : List α)
    (event_id : α) : Bool :=
  decide (event_id ∈ processed)

/-- `mark_event_processed` of the service handlers: add the id to the
in-memory set, then, if the set now holds more than 10000 entries, discard
the first 5000 of its enumeration (`list(_processed_events)[:5000]`). -/
def svc_mark_event_processed {α : Type} [DecidableEq α] (processed : List α)
    (event_id : α) : List α :=
  let s := if event_id ∈ processed then processed else processed ++ [event_id]
  if 10000 < s.length then s.drop 5000 else s

/-! ## Recurrence calculator (`src/services/recurring-task/app/recurrence.py`) -/

/-- `RecurrenceFrequency` enum. -/
inductive RecurrenceFrequency where
  | daily
  | weekly
  | monthly
  | custom
deriving DecidableEq, Repr

/-- `RecurrencePattern` pydantic model of the recurring-task service
(no validators: plain data). -/
structure SvcRecurrencePattern where
  id : String
  frequency : RecurrenceFrequency
  interval : Nat
  by_weekday : Option (List Nat)
  by_monthday : Option Nat
  end_date : Option Int
  max_occurrences : Option Nat
  rrule_string : Option String
deriving Repr

/-- The arguments with which `_calculate_standard_occurrence` builds a
`dateutil.rrule` with `count=2` in each of its three standard branches.
The behaviour of the `dateutil` library itself is not re-implemented; it
enters the theorems as an oracle `RuleSpec → List Int` producing the
(at most two) occurrences of the built rule. -/
inductive RuleSpec where
  | daily (interval : Nat) (dtstart : Int)
  | weekly (interval : Nat) (by_weekday : Option (List Nat)) (dtstart : Int)
  | monthly (interval : Nat) (by_monthday : Option Nat) (dtstart : Int)
deriving DecidableEq, Repr

/-- The `for occ in occurrences: if occ > after: return occ` loop. -/
def firstAfter (after : Int) (occurrences : List Int) : Option Int :=
  occurrences.find? (fun occ => decide (after < occ))

/-- `_calculate_standard_occurrence`: builds the rule for the standard
frequencies and returns the first occurrence strictly after `after`;
returns `None` for any other frequency (the `else` branch, hit by
`custom`). -/
def calc_standard_occurrence (ruleOcc : RuleSpec → List Int)
    (p : SvcRecurrencePattern) (after : Int) : Option Int :=
  match p.frequency with
  | .daily => firstAfter after (ruleOcc (.daily p.interval after))
  | .weekly => firstAfter after (ruleOcc (.weekly p.interval p.by_weekday after))
  | .monthly => firstAfter after (ruleOcc (.monthly p.interval p.by_monthday after))
  | .custom => none

/-- `_calculate_from_rrule_string`: parsing and evaluating the RFC-5545
string is the `dateutil.rrulestr(...).after(after)` call, modelled by the
oracle `rruleAfter` (which yields `none` both when the rule is exhausted
and when parsing raises); then the `end_date` cutoff is applied. -/
def calc_from_rrule_string (rruleAfter : String → Int → Option Int)
    (rrule_str : String) (after : Int) (end_date : Option Int) : Option Int :=
  match rruleAfter rrule_str after with
  | none => none
  | some next_occ =>
      match end_date with
      | some ed => if ed < next_occ then none else some next_occ
      | none => some next_occ

/-- Python truthiness test `pattern.max_occurrences and
occurrences_count >= pattern.max_occurrences` (0 is falsy). -/
def maxOccurrencesReached (p : SvcRecurrencePattern) (occurrences_count : Nat) : Bool :=
  match p.max_occurrences with
  | none => false
  | some m => !(m == 0) && decide (m ≤ occurrences_count)

/-- Python truthiness test `pattern.frequency == CUSTOM and
pattern.rrule_string` (None and the empty string are falsy). -/
def usesCustomRrule (p : SvcRecurrencePattern) : Bool :=
  p.frequency == .custom &&
    (match p.rrule_string with
     | none => false
     | some s => !(s == ""))

/-- `calculate_next_occurrence`:
1. max-occurrences end condition;
2. custom RRULE path when `frequency == custom` and `rrule_string` is a
   non-empty string;
3. otherwise the standard occurrence, cut off at `end_date` when set. -/
def calculate_next_occurrence (ruleOcc : RuleSpec → List Int)
    (rruleAfter : String → Int → Option Int) (p : SvcRecurrencePattern)
    (last_completed : Int) (occurrences_count : Nat) : Option Int :=
  if maxOccurrencesReached p occurrences_count then none
  else if usesCustomRrule p then
    calc_from_rrule_string rruleAfter (p.rrule_string.getD "") last_completed p.end_date
  else
    let next_date := calc_standard_occurrence ruleOcc p last_completed
    match p.end_date, next_date with
    | some ed, some nd => if ed < nd then none else some nd
    | _, _ => next_date

/-- `calculate_due_date_for_instance`: no original due date ⇒ no due date;
otherwise the new instance's due date is the next occurrence shifted by the
offset `original_due_date - original_completed`. -/
def calculate_due_date_for_instance (original_due_date : Option Int)
    (original_completed : Int) (next_occurrence : Int) : Option Int :=
  match original_due_date with
  | none => none
  | some d => some (next_occurrence + (d - original_completed))

/-! ## Recurring-task handler (`src/services/recurring-task/app/handlers.py`) -/

/-- `TaskData` extracted from the event payload. -/
structure TaskData where
  id : String
  user_id : String
  title : String
  description : Option String
  priority : String
  due_date : Option Int
  reminder_offset : Nat
  recurrence_id : Option String
  parent_task_id : Option String
  completed_at : Option Int
deriving Repr

/-- `RecurrenceData` extracted from the event payload.  The payload's
frequency string is carried already converted to the enum; the claims under
study only involve payloads whose frequency string is one of the four valid
values, on which `RecurrenceFrequency(self.frequency)` succeeds. -/
structure RecurrenceData where
  id : String
  frequency : RecurrenceFrequency
  interval : Nat
  by_weekday : Option (List Nat)
  by_monthday : Option Nat
  end_date : Option Int
  max_occurrences : Option Nat
  rrule_string : Option String
deriving Repr

/-- `RecurrenceData.to_pattern`. -/
def RecurrenceData.to_pattern (r : RecurrenceData) : SvcRecurrencePattern :=
  { id := r.id
    frequency := r.frequency
    interval := r.interval
    by_weekday := r.by_weekday
    by_monthday := r.by_monthday
    end_date := r.end_date
    max_occurrences := r.max_occurrences
    rrule_string := r.rrule_string }

/-- A `task.completed` CloudEvents envelope after the
`get_task_data` / `get_recurrence_data` extraction steps: `task = none`
models an unparsable task payload, `recurrence = none` a payload with no
(or unparsable) recurrence. -/
structure TaskCompletedEvent where
  id : String
  task : Option TaskData
  recurrence : Option RecurrenceData

/-- The JSON body and linkage headers that `create_task_instance` sends to
`POST /api/tasks` on the backend. -/
structure CreateTaskRequest where
  user_id : String
  title : String
  description : Option String
  priority : String
  due_date : Option Int
  reminder_offset : Nat
  recurrence_id : String
  parent_task_id : String
deriving Repr

/-- Result dict of `handle_task_completed`. -/
structure HandleResult where
  status : String
  reason : Option String
  new_task_id : Option String
  next_due_date : Option Int
deriving DecidableEq, Repr

/-- `handle_task_completed`: idempotency check, payload extraction,
next-occurrence calculation, instance creation via the backend
(`createTask` oracle: `.ok id` is a 200/201 response, `.error` any raised
exception), and the mark-after-success discipline.  Returns the result dict
and the `_processed_events` set afterwards.  `now` stands for
`datetime.utcnow()` (used when the payload lacks `completed_at`); the
handler hardcodes `occurrences_count = 0`. -/
def handle_task_completed (ruleOcc : RuleSpec → List Int)
    (rruleAfter : String → Int → Option Int)
    (createTask : CreateTaskRequest → Except String String)
    (now : Int) (event : TaskCompletedEvent)
    (processed : List String) : HandleResult × List String :=
  if svc_is_event_processed processed event.id then
    (⟨"SKIPPED", some "already_processed", none, none⟩, processed)
  else
    match event.task with
    | none => (⟨"ERROR", some "invalid_task_data", none, none⟩, processed)
    | some task_data =>
      match event.recurrence with
      | none =>
          (⟨"SKIPPED", some "no_recurrence", none, none⟩,
           svc_mark_event_processed processed event.id)
      | some recurrence_data =>
        let pattern := recurrence_data.to_pattern
        let completed_at := task_data.completed_at.getD now
        let occurrences_count := 0
        match calculate_next_occurrence ruleOcc rruleAfter pattern
            completed_at occurrences_count with
        | none =>
            (⟨"COMPLETED", some "recurrence_ended", none, none⟩,
             svc_mark_event_processed processed event.id)
        | some next_occurrence =>
          let new_due_date := calculate_due_date_for_instance
            task_data.due_date completed_at next_occurrence
          match createTask
              { user_id := task_data.user_id
                title := task_data.title
                description := task_data.description
                priority := task_data.priority
                due_date := new_due_date
                reminder_offset := task_data.reminder_offset
                recurrence_id := recurrence_data.id
                parent_task_id := task_data.id } with
          | .ok new_task_id =>
              (⟨"SUCCESS", none, some new_task_id, new_due_date⟩,
               svc_mark_event_processed processed event.id)
          | .error e =>
              (⟨"ERROR", some e, none, none⟩, processed)

/-! ## Notification dispatcher (`src/services/notification/app/handlers.py`) -/

/-- `NotificationPreference` pydantic model; quiet-hours bounds are times of
day in minutes since midnight. -/
structure NotificationPreference where
  user_id : String
  email_enabled : Bool
  push_enabled : Bool
  quiet_hours_start : Option Nat
  quiet_hours_end : Option Nat
  timezone : String
deriving Repr

/-- `DEFAULT_QUIET_START = time(22, 0)`. -/
def DEFAULT_QUIET_START : Nat := 22 * 60

/-- `DEFAULT_QUIET_END = time(8, 0)`. -/
def DEFAULT_QUIET_END : Nat := 8 * 60

/-- `is_quiet_hours`: substitutes the default bounds for `None` arguments
(`start = quiet_start or DEFAULT_QUIET_START`; a `time` value is always
truthy in this Python version, so only `None` triggers the fallback), then
applies the same-day window when `start <= end` and the overnight wrap
otherwise. -/
def is_quiet_hours (current_time : Nat) (quiet_start : Option Nat)
    (quiet_end : Option Nat) : Bool :=
  let start := quiet_start.getD DEFAULT_QUIET_START
  let «end» := quiet_end.getD DEFAULT_QUIET_END
  if start ≤ «end» then
    decide (start ≤ current_time ∧ current_time ≤ «end»)
  else
    decide (start ≤ current_time ∨ current_time ≤ «end»)

/-- `get_user_preferences`: the backend lookup is the oracle `fetch`
(`none` models a non-200 response, an unparsable body, or a raised network
error); on `none` the hardcoded defaults are returned: both channels
enabled, no quiet hours. -/
def get_user_preferences (fetch : String → Option NotificationPreference)
    (user_id : String) : NotificationPreference :=
  (fetch user_id).getD
    { user_id := user_id
      email_enabled := true
      push_enabled := true
      quiet_hours_start := none
      quiet_hours_end := none
      timezone := "UTC" }

/-- `ReminderData` of the reminder event payload. -/
structure ReminderData where
  task_id : String
  task_title : String
  user_id : String
  due_date : Int
  reminder_offset : Nat
  channels : List String
deriving Repr

/-- `deliver_notification`: the list of channels actually delivered —
each requested channel, gated by that channel's enabled flag (channels
other than `email` / `push` are ignored by the if/elif chain). -/
def deliver_notification (reminder : ReminderData)
    (preferences : NotificationPreference) : List String :=
  reminder.channels.filter (fun channel =>
    (channel == "email" && preferences.email_enabled) ||
    (channel == "push" && preferences.push_enabled))

/-- A reminder event envelope after `get_reminder_data` extraction
(`reminder = none` models an unparsable payload). -/
structure ReminderEvent where
  id : String
  reminder : Option ReminderData

/-- `queue_for_later`: append the reminder to the per-user pending list
(`_pending_notifications`, an association of user id to buffered
reminders). -/
def queue_for_later (pending : List (String × List ReminderData))
    (reminder : ReminderData) : List (String × List ReminderData) :=
  if pending.any (fun p => p.1 == reminder.user_id) then
    pending.map (fun p =>
      if p.1 == reminder.user_id then (p.1, p.2 ++ [reminder]) else p)
  else
    pending ++ [(reminder.user_id, [reminder])]

/-- Result dict of `handle_reminder_trigger`. -/
structure NotifyResult where
  status : String
  reason : Option String
  delivered : Option (List String)
deriving DecidableEq, Repr

/-- `handle_reminder_trigger`: idempotency check, payload extraction,
preference fetch, quiet-hours check at the current UTC time of day
(`now`), then either deferral (buffer + mark processed) or immediate
delivery (deliver + mark processed).  Returns the result dict, the
`_processed_events` set afterwards and the pending buffer afterwards. -/
def handle_reminder_trigger (fetch : String → Option NotificationPreference)
    (now : Nat) (event : ReminderEvent) (processed : List String)
    (pending : List (String × List ReminderData)) :
    NotifyResult × List String × List (String × List ReminderData) :=
  if svc_is_event_processed processed event.id then
    (⟨"SKIPPED", some "already_processed", none⟩, processed, pending)
  else
    match event.reminder with
    | none => (⟨"ERROR", some "invalid_reminder_data", none⟩, processed, pending)
    | some reminder =>
      let preferences := get_user_preferences fetch reminder.user_id
      if is_quiet_hours now preferences.quiet_hours_start
          preferences.quiet_hours_end then
        (⟨"DEFERRED", some "quiet_hours", none⟩,
         svc_mark_event_processed processed event.id,
         queue_for_later pending reminder)
      else
        (⟨"SUCCESS", none, some (deliver_notification reminder preferences)⟩,
         svc_mark_event_processed processed event.id,
         pending)

/-! ## Reminder scheduler (`src/services/notification/app/scheduler.py`) -/

/-- `_MAX_TRACKING_AGE = timedelta(hours=24)`, in minutes. -/
def MAX_TRACKING_AGE : Int := 24 * 60

/-- `should_send_reminder`: no reminder before `due_date - offset`, none
after `due_date`, none when `task_id` already has a tracking entry in
`_sent_reminders`. -/
def should_send_reminder (now : Int) (task_id : String) (due_date : Int)
    (reminder_offset_minutes : Int) (sent : List (String × Int)) : Bool :=
  if now < due_date - reminder_offset_minutes then false
  else if due_date < now then false
  else if sent.any (fun p => p.1 == task_id) then false
  else true

/-- `_sent_reminders[task_id] = now`: Python dict assignment — replace the
value when the key exists, append the entry otherwise. -/
def recordSentReminder (sent : List (String × Int)) (task_id : String)
    (now : Int) : List (String × Int) :=
  if sent.any (fun p => p.1 == task_id) then
    sent.map (fun p => if p.1 == task_id then (p.1, now) else p)
  else
    sent ++ [(task_id, now)]

/-- `publish_reminder_event`, reduced to its tracking effect: the Dapr POST
is the boolean oracle `publishOk`; on success the send is recorded in
`_sent_reminders`, on any HTTP or request error the tracking map is left
untouched and `False` is returned. -/
def publish_reminder_event (publishOk : Bool) (sent : List (String × Int))
    (task_id : String) (now : Int) : Bool × List (String × Int) :=
  if publishOk then (true, recordSentReminder sent task_id now)
  else (false, sent)

/-- `cleanup_tracking`: delete every tracking entry strictly older than 24
hours; return the surviving map and the number of removed entries. -/
def cleanup_tracking (now : Int) (sent : List (String × Int)) :
    List (String × Int) × Nat :=
  let kept := sent.filter (fun p => !(decide (MAX_TRACKING_AGE < now - p.2)))
  (kept, sent.length - kept.length)

/-! ## Event publisher (`src/backend/app/services/event_publisher.py`) -/

/-- An entry of the in-memory `_fallback_queue`:
`{"topic": ..., "data": ..., "metadata": ...}` (the payload dict is
opaque to the queueing logic and modelled as a string). -/
structure FallbackItem where
  topic : String
  data : String
  metadata : Option String
deriving DecidableEq, Repr

/-- `_publish_to_dapr`, reduced to its queue effect: the whole
retry-with-backoff attempt sequence against the Dapr sidecar is the boolean
oracle outcome `ok` for this call; when every attempt fails the item is
appended to `_fallback_queue` and `False` is returned. -/
def publish_to_dapr (ok : Bool) (queue : List FallbackItem)
    (item : FallbackItem) : Bool × List FallbackItem :=
  if ok then (true, queue)
  else (false, queue ++ [item])

/-- The `for item in self._fallback_queue` loop of `retry_fallback_queue`,
with Python list-iteration semantics: the loop index walks the *current*
list, which `publish_to_dapr` may extend while the loop runs.  `oracle i`
is the outcome of the publish call made at iteration `i`.  Fuel bounds the
unrolling; `none` means the loop was still running when the fuel ran out
(the Python loop has no other exit). -/
def retry_loop (oracle : Nat → Bool) :
    Nat → Nat → Nat → List FallbackItem → List FallbackItem →
    Option (Nat × List FallbackItem)
  | 0, _, _, _, _ => none
  | fuel + 1, i, successful, queue, remaining =>
    match queue.get? i with
    | none => some (successful, remaining)
    | some item =>
      let step := publish_to_dapr (oracle i) queue item
      if step.1 then
        retry_loop oracle fuel (i + 1) (successful + 1) step.2 remaining
      else
        retry_loop oracle fuel (i + 1) successful step.2 (remaining ++ [item])

/-- `retry_fallback_queue`: early return 0 on an empty queue; otherwise run
the loop and install `remaining` as the new `_fallback_queue`, returning
the success count. -/
def retry_fallback_queue (oracle : Nat → Bool) (fuel : Nat)
    (queue : List FallbackItem) : Option (Nat × List FallbackItem) :=
  if queue.isEmpty then some (0, queue)
  else retry_loop oracle fuel 0 0 queue []

/-! ## Backend recurrence-pattern construction
(`src/backend/app/schemas/task.py` and `src/backend/app/models/recurrence.py`) -/

/-- `RecurrencePatternCreate` request schema (plain fields after pydantic
validation). -/
structure RecurrencePatternCreate where
  frequency : String
  interval : Int
  by_weekday : Option (List Int)
  by_monthday : Option Int
  end_date : Option Int
  max_occurrences : Option Int
  rrule_string : Option String
deriving DecidableEq, Repr

/-- The `validate_end_condition` field validator of
`RecurrencePatternCreate`, exactly as written: it returns the field value
unchanged (its body is `return v`; the `model_validator` its comment
defers to does not exist in the source). -/
def validate_end_condition {α : Type} (v : Option α) : Option α := v

/-- Parsing a request body into a `RecurrencePatternCreate` — the pydantic
(schema) layer only: the declared per-field constraints (`frequency` must
match `^(daily|weekly|monthly|custom)$`, `interval >= 1`,
`1 <= by_monthday <= 31`, `max_occurrences >= 1`,
`len(rrule_string) <= 500`), then the `validate_end_condition` field
validator on `end_date` and `max_occurrences`; `.error` is a pydantic
`ValidationError`.  This layer does not enforce the end-condition XOR
(the field validator is a pass-through); that check is performed by the
construction endpoints, embedded in `construct_recurrence_pattern`
below. -/
def mkRecurrencePatternCreate (frequency : String) (interval : Int)
    (by_weekday : Option (List Int)) (by_monthday : Option Int)
    (end_date : Option Int) (max_occurrences : Option Int)
    (rrule_string : Option String) : Except String RecurrencePatternCreate :=
  if ¬ (frequency = "daily" ∨ frequency = "weekly" ∨ frequency = "monthly" ∨
        frequency = "custom") then
    .error "frequency must match ^(daily|weekly|monthly|custom)$"
  else if interval < 1 then
    .error "interval must be >= 1"
  else if (match by_monthday with
           | some d => decide (d < 1) || decide (31 < d)
           | none => false) then
    .error "by_monthday must be between 1 and 31"
  else if (match max_occurrences with
           | some m => decide (m < 1)
           | none => false) then
    .error "max_occurrences must be >= 1"
  else if (match rrule_string with
           | some s => decide (500 < s.length)
           | none => false) then
    .error "rrule_string too long"
  else
    .ok
      { frequency := frequency
        interval := interval
        by_weekday := by_weekday
        by_monthday := by_monthday
        end_date := validate_end_condition end_date
        max_occurrences := validate_end_condition max_occurrences
        rrule_string := rrule_string }

/-- The backend `RecurrencePattern` SQLModel as built by
`_create_recurrence_model` (`src/backend/app/api/routes/tasks.py`); the
database table additionally carries the
`recurrence_end_condition_check` constraint (migration 006) enforcing
exactly one end condition as a final guard. -/
structure BackendRecurrencePattern where
  frequency : RecurrenceFrequency
  interval : Int
  by_weekday : Option (List Int)
  by_monthday : Option Int
  end_date : Option Int
  max_occurrences : Option Int
  rrule_string : Option String
deriving DecidableEq, Repr

/-- `RecurrenceFrequency(data.frequency)`: the enum constructor on a
frequency string (`none` models the `ValueError` on any other string;
unreachable after the schema's regex check). -/
def parseFrequency : String → Option RecurrenceFrequency
  | "daily" => some .daily
  | "weekly" => some .weekly
  | "monthly" => some .monthly
  | "custom" => some .custom
  | _ => none

/-- `_create_recurrence_model` of `routes/tasks.py`: convert the parsed
schema object to the SQLModel, converting the frequency string to the
enum. -/
def create_recurrence_model (data : RecurrencePatternCreate) :
    Option BackendRecurrencePattern :=
  (parseFrequency data.frequency).map (fun f =>
    { frequency := f
      interval := data.interval
      by_weekday := data.by_weekday
      by_monthday := data.by_monthday
      end_date := data.end_date
      max_occurrences := data.max_occurrences
      rrule_string := data.rrule_string })

/-- The full construction path for a recurrence pattern, shared by
`create_task` (POST /tasks with a recurrence) and `set_task_recurrence`
(PUT /tasks/{id}/recurrence) in `routes/tasks.py`: FastAPI parses the
body through the pydantic schema, then the route's "Validate end
condition" block raises HTTP 400 when neither or both of `end_date` and
`max_occurrences` are set, and only then is the model built via
`_create_recurrence_model`.  These two routes are the only paths that
construct a pattern (`update_task` ignores the recurrence field). -/
def construct_recurrence_pattern (frequency : String) (interval : Int)
    (by_weekday : Option (List Int)) (by_monthday : Option Int)
    (end_date : Option Int) (max_occurrences : Option Int)
    (rrule_string : Option String) : Except String BackendRecurrencePattern :=
  match mkRecurrencePatternCreate frequency interval by_weekday by_monthday
      end_date max_occurrences rrule_string with
  | .error e => .error e
  | .ok data =>
    if data.end_date = none ∧ data.max_occurrences = none then
      .error "Recurrence must have either end_date or max_occurrences"
    else if data.end_date ≠ none ∧ data.max_occurrences ≠ none then
      .error "Recurrence cannot have both end_date and max_occurrences"
    else
      match create_recurrence_model data with
      | some pattern => .ok pattern
      | none => .error "invalid frequency"

/-! ## Helper lemmas -/

theorem drop_range'_eq : ∀ (m s n : Nat),
    List.drop m (List.range' s n) = List.range' (s + m) (n - m)
  | 0, s, n => by simp
  | m + 1, s, 0 => by simp
  | m + 1, s, n + 1 => by
    rw [List.range'_succ, List.drop_succ_cons, drop_range'_eq m (s + 1) n,
        Nat.succ_sub_succ]
    congr 1
    omega

theorem foldl_mark_range : ∀ (k : Nat), k ≤ 10000 →
    (List.range k).foldl svc_mark_event_processed ([] : List Nat) = List.range k := by
  intro k
  induction k with
  | zero => intro _; rfl
  | succ n ih =>
    intro hk
    rw [List.range_succ, List.foldl_append, ih (Nat.le_of_succ_le hk)]
    simp only [List.foldl_cons, List.foldl_nil]
    unfold svc_mark_event_processed
    have hmem : n ∉ List.range n := by simp [List.mem_range]
    simp only [hmem, if_false, ← List.range_succ, List.length_range]
    have h2 : ¬ (10000 < n + 1) := by omega
    simp [h2]

/-! ## Claim theorems -/

/-- C5: `is_quiet_hours` implements overnight-wrap semantics: with both
bounds given, `start ≤ end` yields the same-day window
`start ≤ now ≤ end`, and `start > end` yields the overnight window
`now ≥ start ∨ now ≤ end`; in particular
`is_quiet_hours(23:30, 22:00, 08:00) = True`,
`is_quiet_hours(12:00, 22:00, 08:00) = False`, and
`is_quiet_hours(14:00, 13:00, 15:00) = True`
(times in minutes since midnight: 23:30 = 1410, 22:00 = 1320,
08:00 = 480, 12:00 = 720, 14:00 = 840, 13:00 = 780, 15:00 = 900). -/
theorem is_quiet_hours_overnight_wrap :
    (∀ now s e : Nat,
      is_quiet_hours now (some s) (some e) =
        if s ≤ e then decide (s ≤ now ∧ now ≤ e)
        else decide (now ≥ s ∨ now ≤ e)) ∧
    is_quiet_hours 1410 (some 1320) (some 480) = true ∧
    is_quiet_hours 720 (some 1320) (some 480) = false ∧
    is_quiet_hours 840 (some 780) (some 900) = true := by
  refine ⟨fun now s e => rfl, by decide, by decide, by decide⟩

/-- C9: `calculate_due_date_for_instance` returns `None` when the original
task had no due date, and otherwise shifts the next occurrence by the
offset `original_due_date - original_completed`; at the spec's example
(minutes since 2026-01-01T00:00: original due 2026-01-10T09:00 = 13500,
completed 2026-01-09T09:00 = 12060, next occurrence
2026-02-10T09:00 = 58140) the new due date is 2026-02-11T09:00 = 59580. -/
theorem due_date_offset_preserved :
    (∀ oc n : Int, calculate_due_date_for_instance none oc n = none) ∧
    (∀ d oc n : Int,
      calculate_due_date_for_instance (some d) oc n = some (n + (d - oc))) ∧
    calculate_due_date_for_instance (some 13500) 12060 58140 = some 59580 := by
  refine ⟨fun _ _ => rfl, fun _ _ _ => rfl, by decide⟩


/-- C1: invoking the idempotent-processing operation twice on the same
`(event_id, consumer_id)` pair executes the wrapped handler exactly once:
starting from a ledger without the pair, the first call runs the handler
(the execution counter moves from 0 to 1) and records the pair; the second
call is short-circuited as `skipped` (not an error) and leaves both the
ledger and the downstream state exactly as the first call left them. -/
theorem idempotent_processing_exactly_once {σ : Type}
    (e : Nat) (c : String) (h : σ → Except String σ) (s s1 : σ)
    (L : List ProcessedEvent) (t1 t2 : Int)
    (hfresh : is_event_processed L e c = false)
    (hok : h s = .ok s1) :
    idempotent_processor e c false (countingHandler h) t1 L (s, 0) =
      ⟨.success, L ++ [⟨e, c, t1⟩], (s1, 1)⟩ ∧
    idempotent_processor e c false (countingHandler h) t2
        (L ++ [⟨e, c, t1⟩]) (s1, 1) =
      ⟨.skipped, L ++ [⟨e, c, t1⟩], (s1, 1)⟩ := by
  constructor
  · unfold idempotent_processor
    rw [hfresh]
    simp [countingHandler, hok, mark_event_processed]
  · have hdup : is_event_processed (L ++ [⟨e, c, t1⟩]) e c = true := by
      simp [is_event_processed, List.any_append]
    unfold idempotent_processor
    rw [hdup]
    simp

/-- Witness for C1 at a concrete input: a fresh ledger, event id 7,
consumer `recurring-task-service`, and a handler incrementing a
downstream counter. -/
theorem idempotent_processing_exactly_once_witness :
    is_event_processed [] 7 "recurring-task-service" = false ∧
    (fun n : Nat => (Except.ok (n + 1) : Except String Nat)) 0 = .ok 1 ∧
    (idempotent_processor 7 "recurring-task-service" false
        (countingHandler (fun n : Nat => .ok (n + 1))) 0 [] (0, 0) =
      ⟨.success, [⟨7, "recurring-task-service", 0⟩], (1, 1)⟩ ∧
    idempotent_processor 7 "recurring-task-service" false
        (countingHandler (fun n : Nat => .ok (n + 1))) 5
        ([] ++ [⟨7, "recurring-task-service", 0⟩]) (1, 1) =
      ⟨.skipped, [⟨7, "recurring-task-service", 0⟩], (1, 1)⟩) :=
  ⟨rfl, rfl,
   idempotent_processing_exactly_once 7 "recurring-task-service"
     (fun n : Nat => .ok (n + 1)) 0 1 [] 0 5 rfl rfl⟩

/-- C2: the processed-mark is written only after the side effect succeeds.
For a pair not yet in the ledger: if the handler raises, the call reports
the failure, the ledger is unchanged (the pair is not recorded) and the
downstream state is whatever the handler left, so a redelivery re-executes
the handler (here: a retry whose handler succeeds runs it and only then
appends the record); if the handler succeeds, the record is written
afterwards and the pair then reads as processed.  The same discipline holds
for `handle_task_completed`: when next-instance creation raises, the
handler returns `ERROR` and leaves `_processed_events` unchanged; when
creation succeeds, the event is marked processed. -/
theorem processed_mark_only_after_success {σ : Type}
    (e : Nat) (c : String) (h hr : σ → Except String σ) (s s1 : σ)
    (m : String) (L : List ProcessedEvent) (t t2 : Int)
    (ruleOcc : RuleSpec → List Int) (rruleAfter : String → Int → Option Int)
    (now : Int) (ev : TaskCompletedEvent) (td : TaskData)
    (rd : RecurrenceData) (processed : List String) (nxt : Int)
    (cmsg tid : String)
    (hfresh : is_event_processed L e c = false)
    (hfail : h s = .error m) (hretry : hr s = .ok s1)
    (hsvcfresh : svc_is_event_processed processed ev.id = false)
    (htask : ev.task = some td) (hrec : ev.recurrence = some rd)
    (hnext : calculate_next_occurrence ruleOcc rruleAfter rd.to_pattern
        (td.completed_at.getD now) 0 = some nxt) :
    idempotent_processor e c false h t L s = ⟨.failed m, L, s⟩ ∧
    idempotent_processor e c false hr t2 L s =
      ⟨.success, mark_event_processed L e c t2, s1⟩ ∧
    is_event_processed (mark_event_processed L e c t2) e c = true ∧
    handle_task_completed ruleOcc rruleAfter (fun _ => .error cmsg) now
        ev processed =
      (⟨"ERROR", some cmsg, none, none⟩, processed) ∧
    handle_task_completed ruleOcc rruleAfter (fun _ => .ok tid) now
        ev processed =
      (⟨"SUCCESS", none, some tid,
          calculate_due_date_for_instance td.due_date
            (td.completed_at.getD now) nxt⟩,
       svc_mark_event_processed processed ev.id) := by
  refine ⟨?_, ?_, ?_, ?_, ?_⟩
  · unfold idempotent_processor
    rw [hfresh]
    simp [hfail]
  · unfold idempotent_processor
    rw [hfresh]
    simp [hretry]
  · simp [is_event_processed, mark_event_processed, List.any_append]
  · unfold handle_task_completed
    rw [hsvcfresh, htask, hrec]
    simp [hnext]
  · unfold handle_task_completed
    rw [hsvcfresh, htask, hrec]
    simp [hnext]

/-- Witness for C2 at a concrete input: a failing creation call
(`Backend returned 500`) leaves the empty ledger and the service's
processed set unchanged, and a daily pattern completed at t = 12060
produces the expected `ERROR`. -/
theorem processed_mark_only_after_success_witness :
    is_event_processed [] 9 "svc" = false ∧
    svc_is_event_processed ([] : List String) "evt-2" = false ∧
    idempotent_processor 9 "svc" false
        (fun _ : Nat => .error "boom") 0 [] 0 =
      ⟨.failed "boom", [], 0⟩ ∧
    handle_task_completed (fun _ => [12060, 13500]) (fun _ _ => none)
        (fun _ => .error "Backend returned 500") 0
        ⟨"evt-2",
         some ⟨"task-1", "user-1", "Water plants", none, "medium",
               some 13500, 30, some "rec-1", none, some 12060⟩,
         some ⟨"rec-1", .daily, 1, none, none, none, none, none⟩⟩ [] =
      (⟨"ERROR", some "Backend returned 500", none, none⟩, []) := by
  have h := processed_mark_only_after_success 9 "svc"
    (fun _ : Nat => .error "boom") (fun n : Nat => .ok (n + 1)) 0 1 "boom"
    [] 0 1 (fun _ => [12060, 13500]) (fun _ _ => none) 0
    ⟨"evt-2",
     some ⟨"task-1", "user-1", "Water plants", none, "medium",
           some 13500, 30, some "rec-1", none, some 12060⟩,
     some ⟨"rec-1", .daily, 1, none, none, none, none, none⟩⟩
    ⟨"task-1", "user-1", "Water plants", none, "medium",
     some 13500, 30, some "rec-1", none, some 12060⟩
    ⟨"rec-1", .daily, 1, none, none, none, none, none⟩
    [] 13500 "Backend returned 500" "task-2"
    rfl rfl rfl rfl rfl rfl rfl
  exact ⟨rfl, rfl, h.1, h.2.2.2.1⟩

/-- C4 counterexample: a user whose preference fetch fails gets the
defaults (quiet-hours fields unset), yet at 23:00 UTC (now = 1380)
`is_quiet_hours` substitutes the built-in default window 22:00–08:00 for
the unset bounds, so `handle_reminder_trigger` defers the reminder
(`DEFERRED`) instead of delivering it — refuting "never defers" /
"delivers immediately regardless of the current time of day". -/
theorem reminder_defaults_defer_at_night :
    is_quiet_hours 1380 none none = true ∧
    (handle_reminder_trigger (fun _ => none) 1380
        ⟨"evt-3", some ⟨"task-9", "Water plants", "user-1", 99999, 30,
                        ["email", "push"]⟩⟩
        [] []).1 =
      ⟨"DEFERRED", some "quiet_hours", none⟩ := by
  exact ⟨rfl, rfl⟩

/-- C4 amended: for a user whose preferences are unavailable the defaults
applied are both channels enabled and quiet-hours fields unset; however
`is_quiet_hours` falls back to the default window 22:00–08:00 (1320 and
480 minutes) for unset bounds, so `handle_reminder_trigger` defers such a
user's reminder exactly when the current time of day is in that overnight
window (now ≥ 22:00 or now ≤ 08:00) and delivers immediately otherwise. -/
theorem reminder_defaults_amended
    (fetch : String → Option NotificationPreference) (now : Nat)
    (event : ReminderEvent) (r : ReminderData) (processed : List String)
    (pending : List (String × List ReminderData))
    (hfetch : fetch r.user_id = none)
    (hfresh : svc_is_event_processed processed event.id = false)
    (hrem : event.reminder = some r) :
    get_user_preferences fetch r.user_id =
      ⟨r.user_id, true, true, none, none, "UTC"⟩ ∧
    is_quiet_hours now none none = decide (1320 ≤ now ∨ now ≤ 480) ∧
    (handle_reminder_trigger fetch now event processed pending).1.status =
      (if 1320 ≤ now ∨ now ≤ 480 then "DEFERRED" else "SUCCESS") := by
  have hpref : get_user_preferences fetch r.user_id =
      ⟨r.user_id, true, true, none, none, "UTC"⟩ := by
    simp [get_user_preferences, hfetch]
  have hq : is_quiet_hours now none none = decide (1320 ≤ now ∨ now ≤ 480) := by
    simp [is_quiet_hours, DEFAULT_QUIET_START, DEFAULT_QUIET_END]
  refine ⟨hpref, hq, ?_⟩
  unfold handle_reminder_trigger
  rw [hfresh, hrem]
  simp only [Bool.false_eq_true, if_false, hpref, hq]
  by_cases hcase : 1320 ≤ now ∨ now ≤ 480
  · simp [hcase]
  · simp [hcase]

/-- Witness for the amended C4 at a concrete input: at midday (12:00,
outside the default window) the defaulted user's reminder is delivered
immediately. -/
theorem reminder_defaults_amended_witness :
    (fun _ : String => (none : Option NotificationPreference)) "user-1" = none ∧
    svc_is_event_processed ([] : List String) "evt-4" = false ∧
    (handle_reminder_trigger (fun _ => none) 720
        ⟨"evt-4", some ⟨"task-9", "Water plants", "user-1", 99999, 30,
                        ["email", "push"]⟩⟩
        [] []).1.status =
      (if 1320 ≤ 720 ∨ 720 ≤ 480 then "DEFERRED" else "SUCCESS") := by
  have h := reminder_defaults_amended (fun _ => none) 720
    ⟨"evt-4", some ⟨"task-9", "Water plants", "user-1", 99999, 30,
                    ["email", "push"]⟩⟩
    ⟨"task-9", "Water plants", "user-1", 99999, 30, ["email", "push"]⟩
    [] [] rfl rfl rfl
  exact ⟨rfl, rfl, h.2.2⟩

/-- C6 counterexample: in the services' in-memory ledger, an event marked
processed can stop reading as processed after enough *other* marks, with no
retention window involved.  Concretely (event ids modelled as the naturals
0, 1, …): after marking event 0 it reads processed, but after marking the
10000 further events 1…10000 the `mark_event_processed` size cap evicts
5000 entries and event 0 no longer reads processed — refuting "continues to
return True throughout the retention window regardless of how many other
events are marked in between". -/
theorem svc_ledger_eviction :
    svc_is_event_processed
      ((List.range 1).foldl svc_mark_event_processed ([] : List Nat)) 0 = true ∧
    svc_is_event_processed
      ((List.range 10001).foldl svc_mark_event_processed ([] : List Nat)) 0 =
      false := by
  constructor
  · rfl
  · have hstep :
        (List.range 10001).foldl svc_mark_event_processed ([] : List Nat) =
          List.drop 5000 (List.range 10001) := by
      rw [List.range_succ, List.foldl_append, foldl_mark_range 10000 le_rfl]
      simp only [List.foldl_cons, List.foldl_nil]
      unfold svc_mark_event_processed
      have hmem : 10000 ∉ List.range 10000 := by simp [List.mem_range]
      simp only [hmem, if_false, ← List.range_succ, List.length_range]
      norm_num
    rw [hstep]
    have : (0 : Nat) ∉ List.drop 5000 (List.range 10001) := by
      rw [List.range_eq_range', drop_range'_eq]
      simp [List.mem_range'_1]
    simpa [svc_is_event_processed] using this

/-- C6 amended: for the backend database ledger the claim holds —
`cleanup_old_events` keeps exactly the records whose `processed_at` is at
or after the retention cutoff, any pair recorded within the window still
reads processed after cleanup, and marking any number of other events
never unmarks a pair.  (The recurring-task and notification services'
in-memory ledgers do not satisfy the "regardless of how many other events
are marked" part: their `mark_event_processed` evicts 5000 entries once
the set exceeds 10000 entries.) -/
theorem cleanup_retention_window (ledger : List ProcessedEvent) (now : Int)
    (days : Nat) (e : Nat) (c : String) :
    (∀ r : ProcessedEvent,
      r ∈ (cleanup_old_events ledger now days).1 ↔
        r ∈ ledger ∧ now - (days : Int) * 1440 ≤ r.processed_at) ∧
    ((∃ r ∈ ledger, r.event_id = e ∧ r.consumer_id = c ∧
        now - (days : Int) * 1440 ≤ r.processed_at) →
      is_event_processed (cleanup_old_events ledger now days).1 e c = true) ∧
    (∀ marks : List (Nat × String × Int),
      is_event_processed ledger e c = true →
      is_event_processed
        (marks.foldl (fun L p => mark_event_processed L p.1 p.2.1 p.2.2) ledger)
        e c = true) := by
  refine ⟨?_, ?_, ?_⟩
  · intro r
    simp [cleanup_old_events, List.mem_filter, not_lt]
  · rintro ⟨r, hmem, he, hc, ht⟩
    have hr : r ∈ (cleanup_old_events ledger now days).1 := by
      simp [cleanup_old_events, List.mem_filter, not_lt, hmem, ht]
    simp only [is_event_processed, List.any_eq_true]
    exact ⟨r, hr, by simp [he, hc]⟩
  · intro marks
    induction marks generalizing ledger with
    | nil => intro hp; exact hp
    | cons p rest ih =>
      intro hp
      simp only [List.foldl_cons]
      exact ih (mark_event_processed ledger p.1 p.2.1 p.2.2)
        (by simp only [is_event_processed, mark_event_processed,
              List.any_append, Bool.or_eq_true] at hp ⊢
            exact Or.inl hp)

/-- Witness for the amended C6 at a concrete input: a record marked at
t = 100 survives a cleanup run at t = 200 with a 7-day retention window,
and marking two further events does not unmark it. -/
theorem cleanup_retention_window_witness :
    ((⟨3, "svc", 100⟩ : ProcessedEvent) ∈ [(⟨3, "svc", 100⟩ : ProcessedEvent)] ∧
      (200 : Int) - (7 : Nat) * 1440 ≤ 100) ∧
    is_event_processed (cleanup_old_events [⟨3, "svc", 100⟩] 200 7).1 3 "svc" =
      true ∧
    is_event_processed
      (([((4 : Nat), ("svc" : String), (150 : Int)), (5, "other", 160)]).foldl
        (fun L p => mark_event_processed L p.1 p.2.1 p.2.2)
        [⟨3, "svc", 100⟩]) 3 "svc" = true := by
  have h := cleanup_retention_window [⟨3, "svc", 100⟩] 200 7 3 "svc"
  refine ⟨⟨by simp, by norm_num⟩, ?_, ?_⟩
  · exact h.2.1 ⟨⟨3, "svc", 100⟩, by simp, rfl, rfl, by norm_num⟩
  · exact h.2.2 [(4, "svc", 150), (5, "other", 160)] (by decide)

theorem retry_loop_fail_none (fuel : Nat) : ∀ (i successful : Nat)
    (queue remaining : List FallbackItem), i < queue.length →
    retry_loop (fun _ => false) fuel i successful queue remaining = none := by
  induction fuel with
  | zero => intro i successful queue remaining _; rfl
  | succ n ih =>
    intro i successful queue remaining hi
    unfold retry_loop
    rw [List.get?_eq_getElem?, List.getElem?_eq_getElem hi]
    simp only [publish_to_dapr, if_false, Bool.false_eq_true]
    exact ih (i + 1) successful (queue ++ [queue[i]]) (remaining ++ [queue[i]])
      (by simp; omega)

/-- C7 refuted on the code: `_publish_to_dapr` appends each failed item
back onto `_fallback_queue` while `retry_fallback_queue` is iterating that
very list.  At a one-item queue whose publish fails on the first call and
succeeds on the second (oracle `n == 1`), the call terminates reporting 1
success yet leaves the item in the queue — the successfully published item
is not removed and will be published a second time by any later retry; and
with a publish that keeps failing (oracle constantly false), the loop keeps
meeting the items it re-appends and never terminates (every fuel bound is
exhausted), instead of attempting each queued item once and returning. -/
theorem retry_fallback_queue_requeues_published :
    retry_fallback_queue (fun n => n == 1) 10
        [⟨"task-events", "payload", none⟩] =
      some (1, [⟨"task-events", "payload", none⟩]) ∧
    (∀ fuel, retry_fallback_queue (fun _ => false) fuel
        [⟨"task-events", "payload", none⟩] = none) := by
  constructor
  · rfl
  · intro fuel
    unfold retry_fallback_queue
    simp only [List.isEmpty_cons, if_false, Bool.false_eq_true]
    exact retry_loop_fail_none fuel 0 0 [⟨"task-events", "payload", none⟩] []
      (by simp)

/-- C8: a reminder is published at most once per task within the 24-hour
tracking window: `should_send_reminder` is true exactly when `now` lies in
`[due_date - offset, due_date]` and no tracking entry exists for the task;
a successful publish records the entry (after which the task has an
entry); `cleanup_tracking` keeps exactly the entries at most 24 hours old;
consequently, while a recorded entry is at most 24 hours old, repeated
scans (cleanup followed by the send check) cannot publish a second
reminder for that task. -/
theorem reminder_dedup_per_tracking_window
    (now t : Int) (task_id : String) (due offset : Int)
    (sent : List (String × Int)) :
    (should_send_reminder now task_id due offset sent = true ↔
      (due - offset ≤ now ∧ now ≤ due ∧
        sent.any (fun p => p.1 == task_id) = false)) ∧
    (publish_reminder_event true sent task_id now =
        (true, recordSentReminder sent task_id now) ∧
      (recordSentReminder sent task_id now).any (fun p => p.1 == task_id) =
        true) ∧
    (∀ p : String × Int,
      p ∈ (cleanup_tracking now sent).1 ↔
        p ∈ sent ∧ now - p.2 ≤ MAX_TRACKING_AGE) ∧
    ((task_id, t) ∈ sent → now - t ≤ MAX_TRACKING_AGE →
      should_send_reminder now task_id due offset
        (cleanup_tracking now sent).1 = false) := by
  refine ⟨?_, ⟨rfl, ?_⟩, ?_, ?_⟩
  · unfold should_send_reminder
    constructor
    · intro htrue
      split_ifs at htrue with h1 h2 h3
      refine ⟨by omega, by omega, ?_⟩
      simp only [Bool.not_eq_true] at h3
      exact h3
    · rintro ⟨ha, hb, hc⟩
      have h1 : ¬ (now < due - offset) := by omega
      have h2 : ¬ (due < now) := by omega
      simp [h1, h2, hc]
  · unfold recordSentReminder
    by_cases h : sent.any (fun p => p.1 == task_id) = true
    · rw [if_pos h, List.any_map]
      have hfun : ((fun p : String × Int => p.1 == task_id) ∘
          (fun p : String × Int =>
            if p.1 == task_id then (p.1, now) else p)) =
          (fun p : String × Int => p.1 == task_id) := by
        funext p
        by_cases hp : p.1 = task_id
        · simp [hp]
        · simp [hp]
      rw [hfun, h]
    · rw [if_neg h]
      simp [List.any_append]
  · intro p
    simp [cleanup_tracking, List.mem_filter, not_lt, MAX_TRACKING_AGE]
  · intro hmem hage
    have hage2 : now - t ≤ (1440 : Int) := by
      simpa [MAX_TRACKING_AGE] using hage
    have hkept : (task_id, t) ∈ (cleanup_tracking now sent).1 := by
      simp only [cleanup_tracking, List.mem_filter]
      refine ⟨hmem, ?_⟩
      simp [MAX_TRACKING_AGE]
      omega
    have hany : (cleanup_tracking now sent).1.any
        (fun p => p.1 == task_id) = true :=
      List.any_eq_true.2 ⟨(task_id, t), hkept, by simp⟩
    unfold should_send_reminder
    split_ifs <;> simp_all

/-- Witness for C8 at a concrete input: task `task-1` recorded at t = 100
still blocks a rescan at t = 200 (entry 100 minutes old) even though the
time window `[due - offset, due] = [180, 210]` contains 200. -/
theorem reminder_dedup_per_tracking_window_witness :
    (("task-1", (100 : Int)) ∈ [(("task-1" : String), (100 : Int))] ∧
      (200 : Int) - 100 ≤ MAX_TRACKING_AGE) ∧
    should_send_reminder 200 "task-1" 210 30
      (cleanup_tracking 200 [("task-1", 100)]).1 = false := by
  have h := reminder_dedup_per_tracking_window 200 100 "task-1" 210 30
    [("task-1", 100)]
  exact ⟨⟨by simp, by norm_num [MAX_TRACKING_AGE]⟩,
    h.2.2.2 (by simp) (by norm_num [MAX_TRACKING_AGE])⟩

theorem maxOccurrencesReached_zero (p : SvcRecurrencePattern) :
    maxOccurrencesReached p 0 = false := by
  unfold maxOccurrencesReached
  cases p.max_occurrences with
  | none => rfl
  | some m => cases m with
    | zero => simp
    | succ k => simp

theorem calc_next_custom_none (ruleOcc : RuleSpec → List Int)
    (rruleAfter : String → Int → Option Int) (p : SvcRecurrencePattern)
    (after : Int) (count : Nat)
    (hfreq : p.frequency = .custom) (hrr : p.rrule_string = none)
    (hmaxb : maxOccurrencesReached p count = false) :
    calculate_next_occurrence ruleOcc rruleAfter p after count = none := by
  have hcust : usesCustomRrule p = false := by
    simp [usesCustomRrule, hrr]
  have hstd : calc_standard_occurrence ruleOcc p after = none := by
    unfold calc_standard_occurrence
    rw [hfreq]
  unfold calculate_next_occurrence
  rw [hmaxb, hcust]
  simp only [Bool.false_eq_true, if_false, hstd]
  cases p.end_date <;> rfl

/-- C10: a `custom` pattern with no `rrule_string` is silently treated as
an ended series: `calculate_next_occurrence` returns `None` without
raising for every `after` timestamp and every occurrence count below
`max_occurrences` (the custom-RRULE branch is skipped because `None` is
falsy and `_calculate_standard_occurrence` hits its `else: return None`
branch), and `handle_task_completed` on such an event therefore reports
`COMPLETED` with reason `recurrence_ended` and marks the event
processed. -/
theorem custom_pattern_without_rrule_ends_series
    (ruleOcc : RuleSpec → List Int) (rruleAfter : String → Int → Option Int)
    (p : SvcRecurrencePattern) (after : Int) (count : Nat)
    (hfreq : p.frequency = .custom) (hrr : p.rrule_string = none)
    (hmax : ∀ m, p.max_occurrences = some m → count < m) :
    calculate_next_occurrence ruleOcc rruleAfter p after count = none ∧
    ∀ (createTask : CreateTaskRequest → Except String String) (now : Int)
      (ev : TaskCompletedEvent) (td : TaskData) (rd : RecurrenceData)
      (processed : List String),
      svc_is_event_processed processed ev.id = false →
      ev.task = some td → ev.recurrence = some rd →
      rd.frequency = .custom → rd.rrule_string = none →
      handle_task_completed ruleOcc rruleAfter createTask now ev processed =
        (⟨"COMPLETED", some "recurrence_ended", none, none⟩,
         svc_mark_event_processed processed ev.id) := by
  constructor
  · have hmaxb : maxOccurrencesReached p count = false := by
      unfold maxOccurrencesReached
      cases hm : p.max_occurrences with
      | none => rfl
      | some m =>
        have hlt := hmax m hm
        have h2 : ¬ (m ≤ count) := by omega
        simp [h2]
    exact calc_next_custom_none ruleOcc rruleAfter p after count hfreq hrr hmaxb
  · intro createTask now ev td rd processed hfresh htask hrec hfreq2 hrr2
    have hnone : calculate_next_occurrence ruleOcc rruleAfter rd.to_pattern
        (td.completed_at.getD now) 0 = none :=
      calc_next_custom_none ruleOcc rruleAfter rd.to_pattern
        (td.completed_at.getD now) 0 hfreq2 hrr2
        (maxOccurrencesReached_zero rd.to_pattern)
    unfold handle_task_completed
    rw [hfresh, htask, hrec]
    simp [hnone]

/-- Witness for C10 at a concrete input: a custom pattern with
`max_occurrences = 3`, no RRULE string, occurrence count 1. -/
theorem custom_pattern_without_rrule_ends_series_witness :
    ((⟨"rec-2", .custom, 1, none, none, none, some 3, none⟩ :
        SvcRecurrencePattern).frequency = .custom ∧
      (⟨"rec-2", .custom, 1, none, none, none, some 3, none⟩ :
        SvcRecurrencePattern).rrule_string = none) ∧
    calculate_next_occurrence (fun _ => []) (fun _ _ => none)
      ⟨"rec-2", .custom, 1, none, none, none, some 3, none⟩ 0 1 = none ∧
    handle_task_completed (fun _ => []) (fun _ _ => none)
        (fun _ => .ok "task-3") 0
        ⟨"evt-5",
         some ⟨"task-1", "user-1", "Stretch", none, "low", none, 30,
               some "rec-2", none, some 0⟩,
         some ⟨"rec-2", .custom, 1, none, none, none, some 3, none⟩⟩ [] =
      (⟨"COMPLETED", some "recurrence_ended", none, none⟩,
       svc_mark_event_processed ([] : List String) "evt-5") := by
  have h := custom_pattern_without_rrule_ends_series (fun _ => [])
    (fun _ _ => none) ⟨"rec-2", .custom, 1, none, none, none, some 3, none⟩
    0 1 rfl rfl (by intro m hm; simp at hm; omega)
  refine ⟨⟨rfl, rfl⟩, h.1, ?_⟩
  exact h.2 (fun _ => .ok "task-3") 0
    ⟨"evt-5",
     some ⟨"task-1", "user-1", "Stretch", none, "low", none, 30,
           some "rec-2", none, some 0⟩,
     some ⟨"rec-2", .custom, 1, none, none, none, some 3, none⟩⟩
    ⟨"task-1", "user-1", "Stretch", none, "low", none, 30,
     some "rec-2", none, some 0⟩
    ⟨"rec-2", .custom, 1, none, none, none, some 3, none⟩
    [] rfl rfl rfl rfl rfl

theorem mkRecurrencePatternCreate_ok_shape (f : String) (i : Int)
    (bw : Option (List Int)) (bm : Option Int) (ed : Option Int)
    (mo : Option Int) (rr : Option String) (d : RecurrencePatternCreate) :
    mkRecurrencePatternCreate f i bw bm ed mo rr = .ok d →
    d = ⟨f, i, bw, bm, ed, mo, rr⟩ := by
  unfold mkRecurrencePatternCreate validate_end_condition
  split_ifs <;> intro h <;>
    first
      | exact h.elim
      | (injection h with h; exact h.symm)

/-- C3: the construction path for a recurrence pattern (the POST /tasks
and PUT /tasks/{id}/recurrence endpoints, the only paths that build one)
rejects every request with both `end_date` and `max_occurrences` set, and
every request with neither set, with an error (HTTP 400) before any model
is built; and whenever construction succeeds, both end-condition fields
are carried over unchanged and exactly one of them is set — the
constructor never accepts an invalid pattern and silently picks one end
condition. -/
theorem recurrence_end_condition_rejected_at_construction
    (frequency : String) (interval : Int) (bw : Option (List Int))
    (bm : Option Int) (ed : Option Int) (mo : Option Int)
    (rr : Option String) :
    ((ed = none ∧ mo = none) ∨ (ed ≠ none ∧ mo ≠ none) →
      ∃ msg, construct_recurrence_pattern frequency interval bw bm ed mo rr =
        .error msg) ∧
    (∀ p : BackendRecurrencePattern,
      construct_recurrence_pattern frequency interval bw bm ed mo rr = .ok p →
      p.end_date = ed ∧ p.max_occurrences = mo ∧
        ((ed ≠ none ∧ mo = none) ∨ (ed = none ∧ mo ≠ none))) := by
  cases hmk : mkRecurrencePatternCreate frequency interval bw bm ed mo rr with
  | error e =>
    constructor
    · intro _
      exact ⟨e, by simp [construct_recurrence_pattern, hmk]⟩
    · intro p hp
      simp [construct_recurrence_pattern, hmk] at hp
  | ok data =>
    have hshape := mkRecurrencePatternCreate_ok_shape frequency interval
      bw bm ed mo rr data hmk
    subst hshape
    constructor
    · rintro (⟨h1, h2⟩ | ⟨h1, h2⟩)
      · subst h1
        subst h2
        exact ⟨"Recurrence must have either end_date or max_occurrences",
          by simp [construct_recurrence_pattern, hmk]⟩
      · refine ⟨"Recurrence cannot have both end_date and max_occurrences", ?_⟩
        simp only [construct_recurrence_pattern, hmk]
        rw [if_neg (by simp_all), if_pos ⟨h1, h2⟩]
    · intro p hp
      simp only [construct_recurrence_pattern, hmk] at hp
      by_cases hc1 : ed = none ∧ mo = none
      · rw [if_pos hc1] at hp
        simp at hp
      · rw [if_neg hc1] at hp
        by_cases hc2 : ed ≠ none ∧ mo ≠ none
        · rw [if_pos hc2] at hp
          simp at hp
        · rw [if_neg hc2] at hp
          have hxor : (ed ≠ none ∧ mo = none) ∨ (ed = none ∧ mo ≠ none) := by
            cases ed <;> cases mo <;> simp_all
          simp only [create_recurrence_model] at hp
          cases hf : parseFrequency frequency with
          | none =>
            rw [hf] at hp
            simp at hp
          | some fr =>
            rw [hf] at hp
            simp only [Option.map_some'] at hp
            injection hp with hp
            exact ⟨by rw [← hp], by rw [← hp], hxor⟩

/-- Witness for C3 at concrete inputs: both end conditions set is
rejected, neither set is rejected, and a valid pattern with only
`max_occurrences` set is accepted with both fields carried over
unchanged. -/
theorem recurrence_end_condition_rejected_at_construction_witness :
    ((some (100000 : Int) ≠ (none : Option Int)) ∧
      (some (5 : Int) ≠ (none : Option Int))) ∧
    (∃ msg, construct_recurrence_pattern "daily" 1 none none
      (some 100000) (some 5) none = .error msg) ∧
    (∃ msg, construct_recurrence_pattern "daily" 1 none none
      none none none = .error msg) ∧
    construct_recurrence_pattern "daily" 1 none none none (some 5) none =
      .ok ⟨.daily, 1, none, none, none, some 5, none⟩ := by
  refine ⟨⟨by simp, by simp⟩, ?_, ?_, rfl⟩
  · exact (recurrence_end_condition_rejected_at_construction "daily" 1
      none none (some 100000) (some 5) none).1
      (Or.inr ⟨by simp, by simp⟩)
  · exact (recurrence_end_condition_rejected_at_construction "daily" 1
      none none none none none).1 (Or.inl ⟨rfl, rfl⟩)
